import Mathlib

/-!
Shallow embedding of `src/modules/threat_modeling.py` (class `ThreatModeling`):
asset classification from port-scan records, threat identification from
vulnerability findings and WAF detection, per-asset risk scoring, the
attack-surface summary, and the accumulated `results` store.

Python integers are modelled as `Int`; the risk score (an int times the float
1.5, exactly representable) is modelled as `Rat`.  Python `dict`s are modelled
as association lists in insertion order (Python dicts iterate in insertion
order); a dict access that can raise `KeyError` is modelled with `Except Unit`.
-/

namespace ThreatModeling

/-- Enum `AssetType` (threat_modeling.py lines 12-18). -/
inductive AssetType where
  | web_server
  | database
  | file_server
  | mail_server
  | domain_controller
  | network_device
deriving DecidableEq, Repr

/-- Enum `ThreatLevel` (threat_modeling.py lines 20-24). -/
inductive ThreatLevel where
  | critical
  | high
  | medium
  | low
deriving DecidableEq, Repr

/-- Dataclass `Asset` (lines 26-33). -/
structure Asset where
  name : String
  type : AssetType
  value : Int
  exposed : Bool
  services : List String
  description : String
deriving DecidableEq, Repr

/-- Dataclass `Threat` (lines 35-43). -/
structure Threat where
  name : String
  level : ThreatLevel
  likelihood : Int
  impact : Int
  description : String
  affected_assets : List String
  attack_vectors : List String
deriving DecidableEq, Repr

/-- One port's record in the port-scan results: the dict
`{service, version?, product?}`.  The `service` key may be absent
(accessing it then raises `KeyError`); `product` and `version` are read with
`info.get(..., '')`. -/
structure ServiceInfo where
  service : Option String := none
  product : Option String := none
  version : Option String := none
deriving DecidableEq, Repr

/-- One host's record: `{'protocols': {proto: {port: info}}}`, read with
`data.get('protocols', {})` (a missing key behaves as the empty dict). -/
structure HostData where
  protocols : List (String × List (Nat × ServiceInfo)) := []
deriving DecidableEq, Repr

/-- A vulnerability-tool finding dict: `vulnerable` read with
`.get('vulnerable', False)`, the remaining keys optional strings. -/
structure Finding where
  vulnerable : Bool := false
  severity : Option String := none
  type : Option String := none
  difficulty : Option String := none
  impact : Option String := none
  method : Option String := none
  details : Option String := none
deriving DecidableEq, Repr

/-- The WAF-detection info dict `{'detected': bool}`. -/
structure WafInfo where
  detected : Bool := false
deriving DecidableEq, Repr

/-- Value of `scan_results['waf_bypass']`: holds `waf_info` read with
`.get('waf_info', {})` (a missing key behaves as `detected = False`). -/
structure WafData where
  waf_info : Option WafInfo := none
deriving DecidableEq, Repr

/-- The `scan_results` dict handed to `analyze_assets` / `identify_threats`;
each top-level key may be absent. -/
structure ScanResults where
  port_scan : Option (List (String × HostData)) := none
  vuln_scan : Option (List (String × List (String × Finding))) := none
  waf_bypass : Option WafData := none
deriving DecidableEq, Repr

/-- The report dict built by `generate_attack_surface_report` (lines
181-187): `critical_assets` and `high_risk_threats` entries are the
(name, enum value string, description) dicts of lines 197-201 and 206-210;
`attack_vectors` is a Python set, modelled as a deduplicated list. -/
structure AttackSurfaceReport where
  exposed_services : List String
  critical_assets : List (String × String × String)
  high_risk_threats : List (String × String × String)
  attack_vectors : List String
  mitigation_suggestions : List String
deriving DecidableEq, Repr

/-- The keys written into `self.results` by the stages (absent until the
corresponding stage succeeds).  Risk scores are a dict: name → score. -/
structure TMResults where
  assets : Option (List Asset) := none
  threats : Option (List Threat) := none
  risk_scores : Option (List (String × Rat)) := none
  attack_surface : Option AttackSurfaceReport := none
deriving DecidableEq, Repr

/-- The mutable state of a `ThreatModeling` instance:
`self.results`, `self.assets`, `self.threats` (lines 46-49). -/
structure TMState where
  results : TMResults := {}
  assets : List Asset := []
  threats : List Threat := []
deriving DecidableEq, Repr

/-- The freshly constructed instance (`__init__`, lines 46-49). -/
def initTM : TMState := {}

/-- Classify one `(host, port, info)` tuple: the body of the innermost loop of
`analyze_assets` (lines 59-90).  `info['service']` is accessed first, so a
record with no `service` key raises (`Except.error`) before any rule applies;
a tuple matching no rule yields `none`. -/
def classifyRecord (host : String) (port : Nat) (info : ServiceInfo) :
    Except Unit (Option Asset) := do
  let s ← match info.service with
    | some s => Except.ok s
    | none => Except.error ()
  if s ∈ ["http", "https"] then
    pure (some
      { name := "Web Server (" ++ host ++ ":" ++ toString port ++ ")"
        type := AssetType.web_server
        value := 8
        exposed := true
        services := [s]
        description := "Web服务器 运行 " ++ info.product.getD "" ++ " " ++
          info.version.getD "" })
  else if s ∈ ["mysql", "mssql", "postgresql", "mongodb"] then
    pure (some
      { name := "Database Server (" ++ host ++ ":" ++ toString port ++ ")"
        type := AssetType.database
        value := 9
        exposed := true
        services := [s]
        description := "数据库服务器 运行 " ++ info.product.getD "" ++ " " ++
          info.version.getD "" })
  else if port = 389 ∨ s ∈ ["ldap", "kerberos"] then
    pure (some
      { name := "Domain Controller (" ++ host ++ ")"
        type := AssetType.domain_controller
        value := 10
        exposed := true
        services := [s]
        description := "域控制器" })
  else
    pure none

/-- The `(host, port, info)` tuples visited by the nested loops of
`analyze_assets` (lines 56-58), in iteration order (host-major, then
protocol, then port); the loop body uses only host, port and info. -/
def portScanRecords (ps : List (String × HostData)) :
    List (String × Nat × ServiceInfo) :=
  ps.flatMap fun hp =>
    hp.2.protocols.flatMap fun pp =>
      pp.2.map fun q => (hp.1, q.1, q.2)

/-- Run the classification loop over the tuples, appending produced assets to
`assets` (`self.assets.append`, lines 61/72/83).  The whole loop runs inside
one `try`: the first raising record stops the iteration; the `Bool` records
whether the loop finished without an exception. -/
def analyzeGo : List Asset → List (String × Nat × ServiceInfo) →
    List Asset × Bool
  | assets, [] => (assets, true)
  | assets, (h, p, i) :: rest =>
    match classifyRecord h p i with
    | Except.error _ => (assets, false)
    | Except.ok none => analyzeGo assets rest
    | Except.ok (some a) => analyzeGo (assets ++ [a]) rest

/-- Embedding of `ThreatModeling.analyze_assets` (lines 51-97).  On success it stores the
asset list into `self.results['assets']` and returns `self.assets`; on an
exception it returns `[]`, keeping whatever was appended to `self.assets`
before the failure and leaving `self.results` untouched. -/
def analyze_assets (s : TMState) (scan : ScanResults) : List Asset × TMState :=
  let records := match scan.port_scan with
    | some ps => portScanRecords ps
    | none => []
  match analyzeGo s.assets records with
  | (assets2, true) =>
    (assets2,
      { s with
        assets := assets2
        results := { s.results with assets := some assets2 } })
  | (assets2, false) =>
    ([], { s with assets := assets2 })

/-- Whether `needle` starts the list `hay` (character-by-character comparison). -/
def charsStartWith : List Char → List Char → Bool
  | _, [] => true
  | [], _ :: _ => false
  | h :: hs, n :: ns => h = n && charsStartWith hs ns

/-- Python's substring test `needle in hay` on strings. -/
def strHasSub (hay needle : String) : Bool :=
  go hay.data needle.data
where
  go : List Char → List Char → Bool
    | hay, needle =>
      charsStartWith hay needle ||
        match hay with
        | [] => false
        | _ :: hs => go hs needle

/-- Python's `str.lower()`, character by character (ASCII case folding, on
which Python's `lower` agrees; no claim distinguishes non-ASCII severities). -/
def strToLower (s : String) : String :=
  String.mk (s.data.map Char.toLower)

/-- Python's `list(set(xs))` for string lists.  The order Python produces is
unspecified (hash order); it is modelled here as first-occurrence order.  No
claim depends on the order of a deduplicated set. -/
def pySetList (l : List String) : List String :=
  l.foldl (fun acc x => if x ∈ acc then acc else acc ++ [x]) []

/-- Embedding of `ThreatModeling._determine_threat_level` (lines 226-238): the severity
string is lowercased and compared; a present but unmatched severity falls to
the final `else` (LOW), an absent severity returns MEDIUM. -/
def determine_threat_level (f : Finding) : ThreatLevel :=
  match f.severity with
  | some sev =>
    let s := strToLower sev
    if s = "critical" then ThreatLevel.critical
    else if s = "high" then ThreatLevel.high
    else if s = "medium" then ThreatLevel.medium
    else ThreatLevel.low
  | none => ThreatLevel.medium

/-- The value of `base_score` right before the `return` of
`_calculate_likelihood` (lines 242-256): base 5 with the type and
difficulty adjustments applied. -/
def likelihoodRaw (f : Finding) : Int :=
  let base : Int := 5
  let base := match f.type with
    | some t =>
      if t ∈ ["rce", "sqli", "upload"] then base + 3
      else if t ∈ ["xss", "csrf"] then base + 2
      else base
    | none => base
  match f.difficulty with
  | some d =>
    if d = "easy" then base + 2
    else if d = "hard" then base - 2
    else base
  | none => base

/-- Embedding of `ThreatModeling._calculate_likelihood` (lines 240-258):
the adjusted base, clamped by `max(1, min(10, base_score))`. -/
def calculate_likelihood (f : Finding) : Int :=
  max 1 (min 10 (likelihoodRaw f))

/-- The value of `base_score` right before the `return` of
`_calculate_impact` (lines 262-272): base 5 with the impact-text
adjustment applied. -/
def impactRaw (f : Finding) : Int :=
  let base : Int := 5
  match f.impact with
  | some impRaw =>
    let imp := strToLower impRaw
    if strHasSub imp "system" || strHasSub imp "root" then base + 4
    else if strHasSub imp "data" || strHasSub imp "confidential" then base + 3
    else if strHasSub imp "user" then base + 2
    else base
  | none => base

/-- Embedding of `ThreatModeling._calculate_impact` (lines 260-274):
the adjusted base, clamped by `max(1, min(10, base_score))`. -/
def calculate_impact (f : Finding) : Int :=
  max 1 (min 10 (impactRaw f))

/-- Embedding of `ThreatModeling._identify_attack_vectors` (lines 276-291). -/
def identify_attack_vectors (f : Finding) : List String :=
  let vectors : List String := []
  let vectors := match f.type with
    | some t =>
      if t = "rce" then vectors ++ ["命令注入", "远程代码执行"]
      else if t = "sqli" then vectors ++ ["SQL注入", "数据库攻击"]
      else if t = "xss" then vectors ++ ["跨站脚本", "客户端攻击"]
      else vectors
    | none => vectors
  let vectors := match f.method with
    | some m => vectors ++ [m]
    | none => vectors
  pySetList vectors

/-- The `Threat` constructed for one vulnerable finding in `identify_threats`
(lines 109-117). -/
def finding_threat (service_type : String) (assets : List Asset)
    (f : Finding) : Threat :=
  { name := "Vulnerability in " ++ service_type
    level := determine_threat_level f
    likelihood := calculate_likelihood f
    impact := calculate_impact f
    description := f.details.getD "未知漏洞"
    affected_assets :=
      (assets.filter fun a => service_type ∈ a.services).map Asset.name
    attack_vectors := identify_attack_vectors f }

/-- The synthetic WAF-bypass `Threat` (lines 124-132). -/
def wafThreat (assets : List Asset) : Threat :=
  { name := "WAF Bypass Potential"
    level := ThreatLevel.high
    likelihood := 7
    impact := 8
    description := "检测到WAF可能被绕过"
    affected_assets :=
      (assets.filter fun a => a.type = AssetType.web_server).map Asset.name
    attack_vectors := ["WAF绕过", "注入攻击"] }

/-- Reading `waf_info.get('detected', False)` after
`scan_results['waf_bypass'].get('waf_info', {})` (lines 122-123). -/
def wafDetected (w : WafData) : Bool :=
  match w.waf_info with
  | some wi => wi.detected
  | none => false

/-- Embedding of `ThreatModeling.identify_threats` (lines 99-140): appends one threat per
vulnerable finding of `scan_results['vuln_scan']` (iterating service types,
then tools), then the synthetic WAF threat when
`scan_results['waf_bypass']` reports a detected WAF; stores the list into
`self.results['threats']` and returns `self.threats`. -/
def identify_threats (s : TMState) (scan : ScanResults) :
    List Threat × TMState :=
  let threats1 := match scan.vuln_scan with
    | some vs =>
      vs.foldl
        (fun acc p =>
          p.2.foldl
            (fun acc q =>
              if q.2.vulnerable then acc ++ [finding_threat p.1 s.assets q.2]
              else acc)
            acc)
        s.threats
    | none => s.threats
  let threats2 := match scan.waf_bypass with
    | some wb =>
      if wafDetected wb then threats1 ++ [wafThreat s.assets] else threats1
    | none => threats1
  (threats2,
    { s with
      threats := threats2
      results := { s.results with threats := some threats2 } })

/-- Assignment `risk_scores[asset.name] = v` on a Python dict: an existing
key is overwritten in place, a new key is appended. -/
def dictInsert (m : List (String × Rat)) (k : String) (v : Rat) :
    List (String × Rat) :=
  if m.any (fun p => p.1 = k) then
    m.map fun p => if p.1 = k then (k, v) else p
  else m ++ [(k, v)]

/-- The score computed for one asset in the loop body of
`calculate_risk_scores` (lines 147-169): base `value * 10`, plus the sum of
`likelihood * impact` over the threats whose `affected_assets` contain the
asset's name (`0` when none do), times `1.5` when exposed, capped at `100`. -/
def assetScore (a : Asset) (threats : List Threat) : Rat :=
  let base : Int := a.value * 10
  let affecting := threats.filter fun t => a.name ∈ t.affected_assets
  let threat_score : Int :=
    if affecting.isEmpty then 0
    else (affecting.map fun t => t.likelihood * t.impact).sum
  let exposure_multiplier : Rat := if a.exposed then 3 / 2 else 1
  min 100 (((base + threat_score : Int) : Rat) * exposure_multiplier)

/-- The `risk_scores` dict built by the loop of `calculate_risk_scores`. -/
def calcRiskScores (assets : List Asset) (threats : List Threat) :
    List (String × Rat) :=
  assets.foldl (fun m a => dictInsert m a.name (assetScore a threats)) []

/-- Embedding of `ThreatModeling.calculate_risk_scores` (lines 142-176): builds the
name → score dict from the current `self.assets` and `self.threats`, stores
it into `self.results['risk_scores']` and returns it. -/
def calculate_risk_scores (s : TMState) : List (String × Rat) × TMState :=
  let rs := calcRiskScores s.assets s.threats
  (rs, { s with results := { s.results with risk_scores := some rs } })

/-- The `.value` string of an `AssetType` enum member. -/
def AssetType.value : AssetType → String
  | AssetType.web_server => "web_server"
  | AssetType.database => "database"
  | AssetType.file_server => "file_server"
  | AssetType.mail_server => "mail_server"
  | AssetType.domain_controller => "domain_controller"
  | AssetType.network_device => "network_device"

/-- The `.value` string of a `ThreatLevel` enum member. -/
def ThreatLevel.value : ThreatLevel → String
  | ThreatLevel.critical => "critical"
  | ThreatLevel.high => "high"
  | ThreatLevel.medium => "medium"
  | ThreatLevel.low => "low"

/-- Embedding of `ThreatModeling._generate_mitigation_suggestions` (lines 293-327). -/
def generate_mitigation_suggestions (exposed_services : List String)
    (attack_vectors : List String) : List String :=
  let suggestions := exposed_services.foldl
    (fun acc s =>
      if s ∈ ["http", "https"] then
        acc ++ ["实施Web应用防火墙(WAF)", "启用HTTPS并配置安全headers",
          "实施输入验证和输出编码"]
      else if s ∈ ["mysql", "mssql", "postgresql"] then
        acc ++ ["限制数据库服务器访问", "实施强密码策略", "定期备份数据库"]
      else acc)
    []
  let suggestions := attack_vectors.foldl
    (fun acc v =>
      if strHasSub v "注入" then
        acc ++ ["使用参数化查询", "实施输入验证", "最小权限原则"]
      else if strHasSub v "跨站" then
        acc ++ ["实施CSP策略", "使用安全的Cookie标志", "输入验证和输出编码"]
      else acc)
    suggestions
  pySetList suggestions

/-- Embedding of `ThreatModeling.generate_attack_surface_report` (lines 178-224):
collects exposed services (duplicates kept), critical assets
(`value >= 8`), high-risk threats (level critical or high) with the union
of their attack vectors, derives mitigation suggestions, and stores the
report into `self.results['attack_surface']`. -/
def generate_attack_surface_report (s : TMState) :
    AttackSurfaceReport × TMState :=
  let exposed_services := s.assets.foldl
    (fun acc a => if a.exposed then acc ++ a.services else acc) []
  let critical_assets := s.assets.foldl
    (fun acc a =>
      if 8 ≤ a.value then acc ++ [(a.name, a.type.value, a.description)]
      else acc)
    []
  let high_risk_threats := s.threats.foldl
    (fun acc t =>
      if t.level = ThreatLevel.critical ∨ t.level = ThreatLevel.high then
        acc ++ [(t.name, t.level.value, t.description)]
      else acc)
    []
  let attack_vectors := pySetList (s.threats.foldl
    (fun acc t =>
      if t.level = ThreatLevel.critical ∨ t.level = ThreatLevel.high then
        acc ++ t.attack_vectors
      else acc)
    [])
  let report : AttackSurfaceReport :=
    { exposed_services := exposed_services
      critical_assets := critical_assets
      high_risk_threats := high_risk_threats
      attack_vectors := attack_vectors
      mitigation_suggestions :=
        generate_mitigation_suggestions exposed_services attack_vectors }
  (report, { s with results := { s.results with attack_surface := some report } })

/-- Embedding of `ThreatModeling.export_results` (lines 352-359): it serializes `self.results`
to a caller-given path; the document's content is exactly `self.results`
(file I/O itself is outside the model). -/
def export_results (s : TMState) : TMResults := s.results

/-- A scan input whose port-scan batch holds, in order: a well-formed http
record on port 80, a malformed record on port 22 missing its `service` key,
and a well-formed https record on port 443; its vulnerability scan holds one
vulnerable finding for service type "http". -/
def mixedScan : ScanResults :=
  { port_scan := some [("h", { protocols := [("tcp",
      [(80, { service := some "http" }),
       (22, { service := none }),
       (443, { service := some "https" })])] })]
    vuln_scan := some [("http", [("nikto", { vulnerable := true })])] }

/-- The asset the classifier builds from the port-80 record of `mixedScan`
(the only record processed before the malformed one raises). -/
def web80 : Asset :=
  { name := "Web Server (h:80)", type := AssetType.web_server, value := 8,
    exposed := true, services := ["http"], description := "Web服务器 运行  " }

/-- A sample exposed web-server asset, used by concrete witnesses. -/
def aWeb : Asset :=
  { name := "a"
    type := AssetType.web_server
    value := 8
    exposed := true
    services := ["http"]
    description := "" }

/-- A sample threat of the given likelihood and impact affecting `aWeb`,
used by concrete witnesses. -/
def tMed (l i : Int) : Threat :=
  { name := "t"
    level := ThreatLevel.medium
    likelihood := l
    impact := i
    description := ""
    affected_assets := ["a"]
    attack_vectors := [] }

/-- A sample database asset (not a web server), used by concrete
witnesses. -/
def dbAsset : Asset :=
  { name := "db"
    type := AssetType.database
    value := 9
    exposed := true
    services := ["mysql"]
    description := "" }

/-- A WAF-detection input reporting a detected WAF, used by concrete
witnesses. -/
def wafYes : WafData := { waf_info := some { detected := true } }

/-! ### Helper lemmas -/

/-- The guard `if affecting_threats else 0` around the sum is redundant:
the sum over an empty list is already `0`. -/
theorem ite_isEmpty_sum (l : List Threat) (f : Threat → Int) :
    (if l.isEmpty then 0 else (l.map f).sum) = (l.map f).sum := by
  cases l <;> simp

/-- Closed form of `assetScore`, with the redundant emptiness guard removed. -/
theorem assetScore_eq (a : Asset) (threats : List Threat) :
    assetScore a threats =
      min 100
        (((a.value * 10 +
            ((threats.filter fun t => a.name ∈ t.affected_assets).map
              fun t => t.likelihood * t.impact).sum : Int) : Rat) *
          (if a.exposed then 3 / 2 else 1)) := by
  simp only [assetScore, ite_isEmpty_sum]

/-- Membership in a Python-dict assignment: an element of the updated dict is
an old element or the assigned pair. -/
theorem mem_dictInsert {m : List (String × Rat)} {k : String} {v : Rat}
    {p : String × Rat} (hp : p ∈ dictInsert m k v) : p ∈ m ∨ p = (k, v) := by
  unfold dictInsert at hp
  split at hp
  · rcases List.mem_map.1 hp with ⟨q, hq, rfl⟩
    by_cases h : q.1 = k
    · simp [h]
    · left
      simpa [h] using hq
  · rcases List.mem_append.1 hp with h | h
    · exact Or.inl h
    · right
      simpa using h

/-- Every entry of the risk-score fold comes from the accumulator or from
some asset of the list. -/
theorem foldl_dictInsert_mem (threats : List Threat) :
    ∀ (l : List Asset) (m : List (String × Rat)) (p : String × Rat),
      p ∈ l.foldl (fun m a => dictInsert m a.name (assetScore a threats)) m →
      p ∈ m ∨ ∃ a ∈ l, p = (a.name, assetScore a threats) := by
  intro l
  induction l with
  | nil =>
    intro m p hp
    exact Or.inl hp
  | cons a l ih =>
    intro m p hp
    simp only [List.foldl_cons] at hp
    rcases ih _ p hp with h | ⟨b, hb, rfl⟩
    · rcases mem_dictInsert h with h' | h'
      · exact Or.inl h'
      · exact Or.inr ⟨a, List.mem_cons_self a l, h'⟩
    · exact Or.inr ⟨b, List.mem_cons_of_mem a hb, rfl⟩

/-- When the inserted key is fresh, a Python-dict assignment appends. -/
theorem dictInsert_fresh {m : List (String × Rat)} {k : String} {v : Rat}
    (h : ∀ p ∈ m, p.1 ≠ k) : dictInsert m k v = m ++ [(k, v)] := by
  unfold dictInsert
  have : m.any (fun p => p.1 = k) = false := by
    simp only [List.any_eq_false, decide_eq_true_eq]
    exact h
  simp [this]

/-- When all asset names are fresh for the accumulator and pairwise distinct,
the risk-score fold appends one entry per asset, in order. -/
theorem foldl_dictInsert_eq_append (threats : List Threat) :
    ∀ (l : List Asset) (m : List (String × Rat)),
      (∀ a ∈ l, ∀ p ∈ m, p.1 ≠ a.name) →
      (l.map Asset.name).Nodup →
      l.foldl (fun m a => dictInsert m a.name (assetScore a threats)) m =
        m ++ l.map fun a => (a.name, assetScore a threats) := by
  intro l
  induction l with
  | nil =>
    intro m _ _
    simp
  | cons a l ih =>
    intro m hfresh hnd
    simp only [List.foldl_cons]
    rw [dictInsert_fresh (fun p hp => hfresh a (List.mem_cons_self a l) p hp)]
    rw [List.map_cons, List.nodup_cons] at hnd
    rw [ih (m ++ [(a.name, assetScore a threats)]) ?_ hnd.2]
    · simp
    · intro b hb p hp
      rcases List.mem_append.1 hp with h | h
      · exact hfresh b (List.mem_cons_of_mem a hb) p h
      · have hpa : p = (a.name, assetScore a threats) := by simpa using h
        subst hpa
        have hmem : b.name ∈ List.map Asset.name l :=
          List.mem_map_of_mem Asset.name hb
        intro hcontra
        have hab : a.name = b.name := hcontra
        exact hnd.1 (hab ▸ hmem)

/-- With pairwise-distinct asset names the risk-score dict is the list of
(name, score) pairs in inventory order. -/
theorem calcRiskScores_eq_map (assets : List Asset) (threats : List Threat)
    (hnd : (assets.map Asset.name).Nodup) :
    calcRiskScores assets threats =
      assets.map fun a => (a.name, assetScore a threats) := by
  unfold calcRiskScores
  rw [foldl_dictInsert_eq_append threats assets [] (by simp) hnd]
  simp

/-- Looking an asset's name up in the (name, score) pair list finds its own
score when names are pairwise distinct. -/
theorem lookup_map_of_nodup (f : Asset → Rat) :
    ∀ (l : List Asset), (l.map Asset.name).Nodup → ∀ a ∈ l,
      (l.map fun b => (b.name, f b)).lookup a.name = some (f a) := by
  intro l
  induction l with
  | nil =>
    intro _ a ha
    exact absurd ha (List.not_mem_nil a)
  | cons b l ih =>
    intro hnd a ha
    rw [List.map_cons, List.nodup_cons] at hnd
    rcases List.mem_cons.1 ha with rfl | ha'
    · simp [List.lookup]
    · have hne : (a.name == b.name) = false := by
        rw [beq_eq_false_iff_ne]
        intro hcontra
        exact hnd.1 (hcontra ▸ List.mem_map_of_mem Asset.name ha')
      simp only [List.map_cons, List.lookup, hne]
      exact ih hnd.2 a ha'

/-- Appending a threat that does not name the asset leaves its score
unchanged. -/
theorem assetScore_append_not_affected (a : Asset) (ts : List Threat)
    (w : Threat) (hw : a.name ∉ w.affected_assets) :
    assetScore a (ts ++ [w]) = assetScore a ts := by
  rw [assetScore_eq, assetScore_eq, List.filter_append]
  have : List.filter (fun t => decide (a.name ∈ t.affected_assets)) [w] = [] := by
    simp [hw]
  rw [this, List.append_nil]

/-- The risk-score dict depends on the threat list only through each asset's
individual score. -/
theorem calcRiskScores_congr (assets : List Asset) (t1 t2 : List Threat)
    (h : ∀ a ∈ assets, assetScore a t1 = assetScore a t2) :
    calcRiskScores assets t1 = calcRiskScores assets t2 := by
  unfold calcRiskScores
  suffices haux : ∀ (l : List Asset) (m : List (String × Rat)),
      (∀ a ∈ l, assetScore a t1 = assetScore a t2) →
      l.foldl (fun m a => dictInsert m a.name (assetScore a t1)) m =
        l.foldl (fun m a => dictInsert m a.name (assetScore a t2)) m by
    exact haux assets [] h
  intro l
  induction l with
  | nil =>
    intro m _
    rfl
  | cons a l ih =>
    intro m hl
    simp only [List.foldl_cons]
    rw [hl a (List.mem_cons_self a l)]
    exact ih _ fun b hb => hl b (List.mem_cons_of_mem a hb)

/-- Replacing one threat by one with the same affected assets and a larger
likelihood–impact product never lowers an asset's score. -/
theorem assetScore_mono_mid (a : Asset) (pre post : List Threat) (t t' : Threat)
    (hname : t'.affected_assets = t.affected_assets)
    (hprod : t.likelihood * t.impact ≤ t'.likelihood * t'.impact) :
    assetScore a (pre ++ t :: post) ≤ assetScore a (pre ++ t' :: post) := by
  rw [assetScore_eq, assetScore_eq]
  by_cases ha : a.name ∈ t.affected_assets
  · have hpt : decide (a.name ∈ t.affected_assets) = true := decide_eq_true ha
    have hpt' : decide (a.name ∈ t'.affected_assets) = true := by
      rw [hname]
      exact hpt
    simp only [List.filter_append, List.filter_cons, hpt, hpt', if_true,
      List.map_append, List.map_cons, List.sum_append, List.sum_cons]
    apply min_le_min (le_refl (100 : Rat))
    apply mul_le_mul_of_nonneg_right
    · apply Int.cast_le.mpr
      linarith [hprod]
    · split <;> norm_num
  · have hpt : decide (a.name ∈ t.affected_assets) = false := by
      simpa using ha
    have hpt' : decide (a.name ∈ t'.affected_assets) = false := by
      rw [hname]
      exact hpt
    simp only [List.filter_append, List.filter_cons, hpt, hpt',
      Bool.false_eq_true, if_false]
    exact le_refl _

/-! ### The claims -/

/-- C1. For every asset `a` in the inventory, the Risk Scorer computes its
score as `min(100, (a.value*10 + S) * m)`, where `S` is the sum over all
threats `t` with `a.name ∈ t.affected_assets` of `t.likelihood * t.impact`
(0 when no threat references `a`), and `m` is 1.5 if `a.exposed` else 1.0;
the result mapping assigns exactly this number to `a.name`.  (Stated under
the data model's invariant that asset names are unique within one run.) -/
theorem c1_risk_score_formula (assets : List Asset) (threats : List Threat)
    (hnd : (assets.map Asset.name).Nodup) (a : Asset) (ha : a ∈ assets) :
    (calcRiskScores assets threats).lookup a.name =
      some (min 100
        (((a.value * 10 +
            ((threats.filter fun t => a.name ∈ t.affected_assets).map
              fun t => t.likelihood * t.impact).sum : Int) : Rat) *
          (if a.exposed then 3 / 2 else 1))) := by
  rw [calcRiskScores_eq_map assets threats hnd]
  rw [lookup_map_of_nodup (fun b => assetScore b threats) assets hnd a ha]
  rw [assetScore_eq]

/-- Witness for C1: a web-server asset of value 8 affected by one threat of
likelihood 5 and impact 5 is scored `min(100, (80+25)*1.5) = 100`. -/
theorem c1_risk_score_formula_witness :
    (([aWeb] : List Asset).map Asset.name).Nodup ∧
    aWeb ∈ ([aWeb] : List Asset) ∧
    (calcRiskScores [aWeb] [tMed 5 5]).lookup aWeb.name = some 100 := by
  refine ⟨by decide, by decide, ?_⟩
  have h := c1_risk_score_formula [aWeb] [tMed 5 5] (by decide) aWeb (by decide)
  rw [h]
  norm_num [aWeb, tMed]

/-- C2, counterexample: a present but unrecognized severity string such as
"info" is mapped to LOW, not to the claimed default MEDIUM
(threat_modeling.py lines 236-237: the final `else` returns LOW; only an
absent `severity` key reaches the `return ThreatLevel.MEDIUM` of line 238). -/
theorem c2_counterexample :
    determine_threat_level { severity := some "info" } = ThreatLevel.low ∧
    ThreatLevel.low ≠ ThreatLevel.medium := by
  constructor
  · rfl
  · decide

/-- C2, amended: for a vulnerable finding the threat level is derived from
the severity string case-insensitively — "critical" maps to critical,
"high" to high, "medium" to medium; an absent severity field defaults to
medium, while a present but unrecognized severity value (anything other
than those three names, including "low") is assigned level low. -/
theorem c2_amended_severity_mapping (f : Finding) :
    (determine_threat_level f = ThreatLevel.critical ↔
      ∃ s, f.severity = some s ∧ strToLower s = "critical") ∧
    (determine_threat_level f = ThreatLevel.high ↔
      ∃ s, f.severity = some s ∧ strToLower s = "high") ∧
    (determine_threat_level f = ThreatLevel.medium ↔
      (f.severity = none ∨ ∃ s, f.severity = some s ∧ strToLower s = "medium")) ∧
    (determine_threat_level f = ThreatLevel.low ↔
      ∃ s, f.severity = some s ∧
        strToLower s ∉ (["critical", "high", "medium"] : List String)) := by
  rcases hs : f.severity with _ | s
  · simp [determine_threat_level, hs]
  · simp only [determine_threat_level, hs, Option.some.injEq]
    by_cases h1 : strToLower s = "critical"
    · simp [h1]
    · by_cases h2 : strToLower s = "high"
      · simp [h1, h2]
      · by_cases h3 : strToLower s = "medium"
        · simp [h1, h2, h3]
        · simp [h1, h2, h3]

/-- C6. The likelihood of a threat derived from a vulnerability finding
equals 5, plus 3 if the finding's type is one of rce/sqli/upload or plus 2
if it is one of xss/csrf, plus 2 if difficulty is "easy" or minus 2 if
difficulty is "hard", with the type and difficulty adjustments applied
independently, and the total clamped to [1, 10]. -/
theorem c6_likelihood_formula (f : Finding) :
    calculate_likelihood f =
      max 1 (min 10 (5 +
        (match f.type with
         | some t =>
           if t ∈ (["rce", "sqli", "upload"] : List String) then (3 : Int)
           else if t ∈ (["xss", "csrf"] : List String) then 2
           else 0
         | none => 0) +
        (match f.difficulty with
         | some d =>
           if d = "easy" then (2 : Int)
           else if d = "hard" then -2
           else 0
         | none => 0))) := by
  unfold calculate_likelihood likelihoodRaw
  rcases f.type with _ | t <;> rcases f.difficulty with _ | d <;>
    simp only [] <;> (try split_ifs) <;> norm_num

/-- C7. Running the Risk Scorer twice on an unchanged asset inventory and
threat list yields identical score mappings; the second run replaces the
first run's stored mapping with an equal one. -/
theorem c7_idempotent (s : TMState) :
    (calculate_risk_scores (calculate_risk_scores s).2).1 =
      (calculate_risk_scores s).1 ∧
    (calculate_risk_scores (calculate_risk_scores s).2).2.results.risk_scores =
      some (calculate_risk_scores s).1 := by
  exact ⟨rfl, rfl⟩

/-- C3, evidence of the code bug.  In a batch with a well-formed http record,
then a record missing its `service` key, then a well-formed https record, the
exception of the malformed record aborts the whole batch: `analyze_assets`
returns `[]` and the https record is never classified — only the asset
appended before the failure remains in `self.assets` — contradicting the
spec's per-record failure policy.  The second conjunct shows the https record
is itself well-formed: classified alone it yields an asset. -/
theorem c3_malformed_record_aborts_batch :
    analyze_assets initTM mixedScan =
      ([], { results := {}, assets := [web80], threats := [] }) ∧
    classifyRecord "h" 443 { service := some "https" } =
      Except.ok (some
        { name := "Web Server (h:443)"
          type := AssetType.web_server
          value := 8
          exposed := true
          services := ["https"]
          description := "Web服务器 运行  " }) := by
  exact ⟨rfl, rfl⟩

/-- C4. A port-389 record carrying no service name (an empty `service`
string, which matches no service-name rule) is classified as exactly one
Asset of type domain_controller, value 10, exposed, whose name is keyed by
the host only — no port appears in it. -/
theorem c4_port389_empty_service (host : String) :
    (analyze_assets initTM
      { port_scan := some [(host, { protocols := [("tcp",
          [(389, { service := some "" })])] })] }).1 =
      [{ name := "Domain Controller (" ++ host ++ ")",
         type := AssetType.domain_controller, value := 10, exposed := true,
         services := [""], description := "域控制器" }] := by
  rfl

/-- C5. For every asset the computed risk score lies in [0, 100] (under the
data model's nonnegative asset values and threat likelihoods/impacts), and
for every threat produced from a vulnerability finding the likelihood and
the impact each lie in [1, 10], regardless of the finding's field values. -/
theorem c5_bounds (assets : List Asset) (threats : List Threat)
    (hA : ∀ a ∈ assets, 0 ≤ a.value)
    (hT : ∀ t ∈ threats, 0 ≤ t.likelihood ∧ 0 ≤ t.impact) :
    (∀ p ∈ calcRiskScores assets threats, 0 ≤ p.2 ∧ p.2 ≤ 100) ∧
    ∀ f : Finding,
      1 ≤ calculate_likelihood f ∧ calculate_likelihood f ≤ 10 ∧
      1 ≤ calculate_impact f ∧ calculate_impact f ≤ 10 := by
  constructor
  · intro p hp
    rcases foldl_dictInsert_mem threats assets [] p hp with h | ⟨a, ha, rfl⟩
    · exact absurd h (List.not_mem_nil p)
    · constructor
      · show (0 : Rat) ≤ assetScore a threats
        rw [assetScore_eq]
        apply le_min (by norm_num)
        apply mul_nonneg
        · have hbase : (0 : Int) ≤ a.value * 10 := by
            have := hA a ha
            linarith
          have hsum : (0 : Int) ≤
              ((threats.filter fun t => a.name ∈ t.affected_assets).map
                fun t => t.likelihood * t.impact).sum := by
            apply List.sum_nonneg
            intro x hx
            rcases List.mem_map.1 hx with ⟨t, ht, rfl⟩
            have htm : t ∈ threats := List.mem_of_mem_filter ht
            exact mul_nonneg (hT t htm).1 (hT t htm).2
          exact_mod_cast add_nonneg hbase hsum
        · split_ifs <;> norm_num
      · show assetScore a threats ≤ 100
        rw [assetScore_eq]
        exact min_le_left _ _
  · intro f
    simp only [calculate_likelihood, calculate_impact]
    refine ⟨le_max_left _ _, ?_, le_max_left _ _, ?_⟩
    · exact max_le (by norm_num) (min_le_left _ _)
    · exact max_le (by norm_num) (min_le_left _ _)

/-- Witness for C5: one exposed web-server asset of value 8 and one threat
of likelihood 5, impact 5 satisfy the hypotheses, and the bounds hold. -/
theorem c5_bounds_witness :
    (∀ a ∈ ([aWeb] : List Asset), 0 ≤ a.value) ∧
    (∀ t ∈ ([tMed 5 5] : List Threat), 0 ≤ t.likelihood ∧ 0 ≤ t.impact) ∧
    ((∀ p ∈ calcRiskScores [aWeb] [tMed 5 5], 0 ≤ p.2 ∧ p.2 ≤ 100) ∧
     ∀ f : Finding,
       1 ≤ calculate_likelihood f ∧ calculate_likelihood f ≤ 10 ∧
       1 ≤ calculate_impact f ∧ calculate_impact f ≤ 10) :=
  ⟨by decide, by decide,
    c5_bounds [aWeb] [tMed 5 5] (by decide) (by decide)⟩

/-- C8. For any asset `a` affected by a threat `t`, increasing `t`'s
likelihood or `t`'s impact by any `d ≥ 0` while keeping everything else
fixed (under the data model's nonnegative likelihood/impact) never decreases
the risk score computed for `a`. -/
theorem c8_monotonicity (a : Asset) (pre post : List Threat) (t : Threat)
    (d : Int) (_ha : a.name ∈ t.affected_assets) (hd : 0 ≤ d)
    (hl : 0 ≤ t.likelihood) (hi : 0 ≤ t.impact) :
    assetScore a (pre ++ t :: post) ≤
      assetScore a (pre ++ { t with likelihood := t.likelihood + d } :: post) ∧
    assetScore a (pre ++ t :: post) ≤
      assetScore a (pre ++ { t with impact := t.impact + d } :: post) := by
  constructor
  · apply assetScore_mono_mid a pre post t
      { t with likelihood := t.likelihood + d } rfl
    show t.likelihood * t.impact ≤ (t.likelihood + d) * t.impact
    nlinarith [mul_nonneg hd hi]
  · apply assetScore_mono_mid a pre post t
      { t with impact := t.impact + d } rfl
    show t.likelihood * t.impact ≤ t.likelihood * (t.impact + d)
    nlinarith [mul_nonneg hl hd]

/-- Witness for C8: the asset named "a", one threat affecting it with
likelihood 2 and impact 3, increased by d = 1. -/
theorem c8_monotonicity_witness :
    aWeb.name ∈ (tMed 2 3).affected_assets ∧
    (0 : Int) ≤ 1 ∧ (0 : Int) ≤ (tMed 2 3).likelihood ∧
    (0 : Int) ≤ (tMed 2 3).impact ∧
    (assetScore aWeb ([] ++ tMed 2 3 :: []) ≤
       assetScore aWeb
         ([] ++ { tMed 2 3 with likelihood := (tMed 2 3).likelihood + 1 } :: []) ∧
     assetScore aWeb ([] ++ tMed 2 3 :: []) ≤
       assetScore aWeb
         ([] ++ { tMed 2 3 with impact := (tMed 2 3).impact + 1 } :: [])) :=
  ⟨by decide, by decide, by decide, by decide,
    c8_monotonicity aWeb [] [] (tMed 2 3) 1
      (by decide) (by decide) (by decide) (by decide)⟩

/-- C9. When WAF detection reports detected, `identify_threats` appends
exactly one extra threat named "WAF Bypass Potential" with level high,
likelihood 7 and impact 8, whose affected assets are exactly the web_server
assets of the inventory; with zero web_server assets its affected-asset list
is empty and the Risk Scorer's output is unchanged by this threat. -/
theorem c9_waf_threat (s : TMState) (wb : WafData)
    (hdet : wafDetected wb = true) :
    (identify_threats s { waf_bypass := some wb }).1 =
      s.threats ++ [wafThreat s.assets] ∧
    (wafThreat s.assets).name = "WAF Bypass Potential" ∧
    (wafThreat s.assets).level = ThreatLevel.high ∧
    (wafThreat s.assets).likelihood = 7 ∧
    (wafThreat s.assets).impact = 8 ∧
    (wafThreat s.assets).affected_assets =
      (s.assets.filter fun a => a.type = AssetType.web_server).map Asset.name ∧
    ((∀ a ∈ s.assets, a.type ≠ AssetType.web_server) →
      (wafThreat s.assets).affected_assets = [] ∧
      calcRiskScores s.assets (s.threats ++ [wafThreat s.assets]) =
        calcRiskScores s.assets s.threats) := by
  refine ⟨?_, rfl, rfl, rfl, rfl, rfl, ?_⟩
  · simp [identify_threats, hdet]
  · intro hnoweb
    have hempty : (wafThreat s.assets).affected_assets = [] := by
      have hfil :
          s.assets.filter (fun a => decide (a.type = AssetType.web_server)) =
            [] := by
        rw [List.filter_eq_nil_iff]
        intro a ha
        simp [hnoweb a ha]
      simp [wafThreat, hfil]
    refine ⟨hempty, ?_⟩
    apply calcRiskScores_congr
    intro a _
    apply assetScore_append_not_affected
    rw [hempty]
    exact List.not_mem_nil _

/-- Witness for C9: a detected WAF and an inventory holding one database
asset (so no web servers). -/
theorem c9_waf_threat_witness :
    wafDetected wafYes = true ∧
    ((identify_threats { assets := [dbAsset], threats := [] }
        { waf_bypass := some wafYes }).1 = [] ++ [wafThreat [dbAsset]] ∧
     (wafThreat [dbAsset]).name = "WAF Bypass Potential" ∧
     (wafThreat [dbAsset]).level = ThreatLevel.high ∧
     (wafThreat [dbAsset]).likelihood = 7 ∧
     (wafThreat [dbAsset]).impact = 8 ∧
     (wafThreat [dbAsset]).affected_assets =
       (([dbAsset] : List Asset).filter
         fun a => a.type = AssetType.web_server).map Asset.name ∧
     ((∀ a ∈ ([dbAsset] : List Asset), a.type ≠ AssetType.web_server) →
       (wafThreat [dbAsset]).affected_assets = [] ∧
       calcRiskScores [dbAsset] ([] ++ [wafThreat [dbAsset]]) =
         calcRiskScores [dbAsset] [])) :=
  ⟨by decide,
    c9_waf_threat { assets := [dbAsset], threats := [] } wafYes (by decide)⟩

/-- C10. When the asset-classification batch raises partway through (the
malformed port-22 record of `mixedScan`), `analyze_assets` returns the empty
list, yet the asset appended before the failure stays in the shared
inventory and is seen by the Threat Identifier (which links it), the Risk
Scorer (which scores it) and the Attack-Surface Summarizer (which lists its
service); the run is not atomic, and the serialized results hold no
`assets` key at all — in particular not the partially-built asset list. -/
theorem c10_partial_state_not_atomic :
    (analyze_assets initTM mixedScan).1 = [] ∧
    (analyze_assets initTM mixedScan).2.assets = [web80] ∧
    (identify_threats (analyze_assets initTM mixedScan).2 mixedScan).1 =
      [{ name := "Vulnerability in http", level := ThreatLevel.medium,
         likelihood := 5, impact := 5, description := "未知漏洞",
         affected_assets := ["Web Server (h:80)"], attack_vectors := [] }] ∧
    (calculate_risk_scores
        (identify_threats (analyze_assets initTM mixedScan).2 mixedScan).2).1 =
      [("Web Server (h:80)", 100)] ∧
    (generate_attack_surface_report
        (calculate_risk_scores
          (identify_threats (analyze_assets initTM mixedScan).2
            mixedScan).2).2).1.exposed_services = ["http"] ∧
    (export_results
        (generate_attack_surface_report
          (calculate_risk_scores
            (identify_threats (analyze_assets initTM mixedScan).2
              mixedScan).2).2).2).assets = none := by
  refine ⟨rfl, rfl, rfl, ?_, rfl, rfl⟩
  show calcRiskScores
      (identify_threats (analyze_assets initTM mixedScan).2 mixedScan).2.assets
      (identify_threats (analyze_assets initTM mixedScan).2 mixedScan).2.threats =
    [("Web Server (h:80)", 100)]
  have hassets : (identify_threats (analyze_assets initTM mixedScan).2
      mixedScan).2.assets = [web80] := rfl
  have hthreats : (identify_threats (analyze_assets initTM mixedScan).2
      mixedScan).2.threats =
    [{ name := "Vulnerability in http", level := ThreatLevel.medium,
       likelihood := 5, impact := 5, description := "未知漏洞",
       affected_assets := ["Web Server (h:80)"], attack_vectors := [] }] := rfl
  have hscore : assetScore web80
      [{ name := "Vulnerability in http", level := ThreatLevel.medium,
         likelihood := 5, impact := 5, description := "未知漏洞",
         affected_assets := ["Web Server (h:80)"], attack_vectors := [] }] =
      100 := by
    rw [assetScore_eq]
    norm_num [web80]
  rw [hassets, hthreats]
  unfold calcRiskScores
  simp only [List.foldl_cons, List.foldl_nil, hscore]
  simp [dictInsert, web80]

end ThreatModeling
